import Mathlib

/-!
Shallow embedding of the pkcscanning scan-capture workflow.

The repository is a React application; the parts the claims are about are
the `CameraScanner` component (several revisions exist in the repository:
`src/components/camera-scanner.tsx`, the variant embedded in
`src/components/scan-history.tsx`, and the demo revision in
`src/unnamed/part_000`), the `ScanHistory` component, and the two Genkit
flow files (`src/ai/flows/initiate-scan-with-prompt.ts` in two schema
revisions, and `summarize-scan-history.ts`).

React state hooks are modelled as fields of explicit state structures;
an async handler is modelled as a pure function taking the eventual
response of the external call as an argument and returning the final
state together with the observable effects (whether the external call
was issued, which toast was shown).
-/

namespace PkcScanning

/-- A camera media stream, represented by the identifiers of the device
tracks it holds (`stream.getTracks()` in the source). -/
structure MediaStream where
  tracks : List Nat
  deriving DecidableEq, Repr

/-- A confirmed scan record as displayed by `ScanHistory`
(`ScanResult` in `scanner-layout.tsx`): an identifier, the plate string
and an epoch-milliseconds timestamp. -/
structure ScanRecord where
  id : Nat
  plateNumber : String
  timestamp : Nat
  deriving DecidableEq, Repr

/-- The component-local state of `CameraScanner`: the four `useState`
hooks `stream`, `isScanning`, `detectedPlate` and `isCapturing`. -/
structure ScannerState where
  stream : Option MediaStream
  isScanning : Bool
  detectedPlate : Option String
  isCapturing : Bool
  deriving DecidableEq, Repr

/-- The initial state of the hooks: `useState(null)`, `useState(false)`,
`useState<string | null>(null)`, `useState(false)`. -/
def initialScanner : ScannerState :=
  { stream := none, isScanning := false, detectedPlate := none, isCapturing := false }

/-- The resolution of the `initiateScanWithPrompt` call: either the flow
resolved with a `plateNumber` string, or the promise rejected. -/
inductive ScanOutcome where
  | ok (plateNumber : String)
  | err
  deriving DecidableEq, Repr

/-- The toasts the scanner components can show. -/
inductive Toast where
  | plateDetected (p : String)
  | noPlateFound
  | scanFailed
  | saved (p : String)
  deriving DecidableEq, Repr

/-- The result of one run of a scan handler: the final component state,
whether a recognition request was actually issued to the flow, and the
toast that was shown (if any). -/
structure ScanStep where
  state : ScannerState
  called : Bool
  toast : Option Toast
  deriving DecidableEq, Repr

/-- JavaScript truthiness of a `string | null` value: `null` and the
empty string are falsy, every other string is truthy. -/
def jsTruthyStr : Option String → Bool
  | none => false
  | some p => p != ""

/-- The whitespace characters relevant to `String.prototype.trim` for
the strings this program handles (space, tab, newline, carriage
return). -/
def isJsWhitespace (c : Char) : Bool :=
  c == ' ' || c == '\t' || c == '\n' || c == '\r'

/-- `String.prototype.trim()`: strip leading and trailing whitespace. -/
def jsTrim (s : String) : String :=
  ⟨((s.data.dropWhile isJsWhitespace).reverse.dropWhile isJsWhitespace).reverse⟩

/-- `String.prototype.toUpperCase()` on the ASCII range (sufficient for
the plate strings this program handles). -/
def jsToUpper (s : String) : String :=
  ⟨s.data.map fun c => if 'a' ≤ c && c ≤ 'z' then Char.ofNat (c.toNat - 32) else c⟩

/-- `handleScan` of `src/components/camera-scanner.tsx`.  Guard:
`if (isCapturing || !videoRef.current || !canvasRef.current) return;`
(a silent no-op).  Then the flags are set, the frame is drawn (a null
canvas context throws before the flow is called), the flow is invoked,
and on `result.plateNumber && result.plateNumber.trim().length > 0` the
plate is staged verbatim via `setDetectedPlate(result.plateNumber)`;
otherwise a destructive "No Plate Found" toast is shown.  A rejected
promise shows the "Scan Failed" toast.  The `finally` block resets both
flags, so the final state always has them `false`. -/
def handleScan (s : ScannerState) (refsOk ctxOk : Bool) (resp : ScanOutcome) : ScanStep :=
  if s.isCapturing || !refsOk then ⟨s, false, none⟩
  else if !ctxOk then
    ⟨{ s with isScanning := false, isCapturing := false }, false, some .scanFailed⟩
  else
    match resp with
    | .ok p =>
        if p != "" && decide (0 < (jsTrim p).length) then
          ⟨{ s with isScanning := false, isCapturing := false, detectedPlate := some p },
            true, some (.plateDetected p)⟩
        else
          ⟨{ s with isScanning := false, isCapturing := false }, true, some .noPlateFound⟩
    | .err =>
        ⟨{ s with isScanning := false, isCapturing := false }, true, some .scanFailed⟩

/-- `handleScan` of the `CameraScanner` revision embedded in
`src/components/scan-history.tsx`: identical control flow, but the
staged value is `result.plateNumber.toUpperCase()` (no trimming). -/
def handleScanUpper (s : ScannerState) (refsOk ctxOk : Bool) (resp : ScanOutcome) : ScanStep :=
  if s.isCapturing || !refsOk then ⟨s, false, none⟩
  else if !ctxOk then
    ⟨{ s with isScanning := false, isCapturing := false }, false, some .scanFailed⟩
  else
    match resp with
    | .ok p =>
        if p != "" && decide (0 < (jsTrim p).length) then
          ⟨{ s with isScanning := false, isCapturing := false, detectedPlate := some (jsToUpper p) },
            true, some (.plateDetected p)⟩
        else
          ⟨{ s with isScanning := false, isCapturing := false }, true, some .noPlateFound⟩
    | .err =>
        ⟨{ s with isScanning := false, isCapturing := false }, true, some .scanFailed⟩

/-- The hard-coded fallback plates of `src/unnamed/part_000`. -/
def mockPlates : List String :=
  ["ABC-1234", "XYZ-9876", "DL-5SB-1029", "CA-992-PX", "TX-B45-920"]

/-- `handleScan` of the demo revision `src/unnamed/part_000`.  Guard:
`if (isCapturing) return;`.  On a truthy `result.plateNumber` the plate
is staged verbatim; on an empty result the branch commented
"Fallback for demo if no plate found in mock" stages
`mockPlates[Math.floor(Math.random() * mockPlates.length)]` (the random
index is the `rand` argument) with no toast.  Errors show "Scan Failed". -/
def handleScanDemo (s : ScannerState) (resp : ScanOutcome) (rand : Fin 5) : ScanStep :=
  if s.isCapturing then ⟨s, false, none⟩
  else
    match resp with
    | .ok p =>
        if p != "" then
          ⟨{ s with isScanning := false, isCapturing := false, detectedPlate := some p },
            true, some (.plateDetected p)⟩
        else
          ⟨{ s with isScanning := false, isCapturing := false, detectedPlate := some (mockPlates.get rand) },
            true, none⟩
    | .err =>
        ⟨{ s with isScanning := false, isCapturing := false }, true, some .scanFailed⟩

/-- Modelled from the spec: the parent layout component
(`scanner-layout.tsx`, not present under `src/`) owns the History Log
and passes `CameraScanner` an `onScan` callback; per the spec the log is
append-only, insertion-ordered, with a fresh identifier and current
timestamp: "`Staged --accept--> Idle`: StagedResult is promoted to a
ScanRecord (fresh identifier, current timestamp) and appended to the
History Log". -/
def onScan (plate : String) (id ts : Nat) (history : List ScanRecord) : List ScanRecord :=
  history ++ [⟨id, plate, ts⟩]

/-- `savePlate` of `CameraScanner` (identical in every revision):
`if (detectedPlate) { onScan(detectedPlate); setDetectedPlate(null); toast(Saved) }`.
Returns the new component state, the new History Log (via the `onScan`
callback), and the toast. -/
def savePlate (s : ScannerState) (history : List ScanRecord) (id ts : Nat) :
    ScannerState × List ScanRecord × Option Toast :=
  match s.detectedPlate with
  | some p =>
      if p != "" then
        ({ s with detectedPlate := none }, onScan p id ts history, some (.saved p))
      else (s, history, none)
  | none => (s, history, none)

/-- The Redo button handler: `onClick={() => setDetectedPlate(null)}`. -/
def rejectPlate (s : ScannerState) : ScannerState :=
  { s with detectedPlate := none }

/-- Staging a plate candidate: `setDetectedPlate(p)` after a successful
recognition. -/
def stageResult (s : ScannerState) (p : String) : ScannerState :=
  { s with detectedPlate := some p }

/-- A user decision on a staged result: the Save button or the Redo
button. -/
inductive Decision where
  | accept
  | reject
  deriving DecidableEq, Repr

/-- The number of accepts in a decision sequence. -/
def countAccepts : List (String × Decision) → Nat
  | [] => 0
  | (_, .accept) :: rest => countAccepts rest + 1
  | (_, .reject) :: rest => countAccepts rest

/-- The plates accepted along a decision sequence, in order. -/
def acceptedPlates : List (String × Decision) → List String
  | [] => []
  | (p, .accept) :: rest => p :: acceptedPlates rest
  | (_, .reject) :: rest => acceptedPlates rest

/-- A run of the staged-decision cycle: each element stages a plate
candidate (as a successful recognition does) and then either the Save
button (`savePlate`) or the Redo button (`rejectPlate`) is pressed.
Fresh record identifiers are taken as the current log length and the
timestamp as 0 (neither affects the log length or order). -/
def runDecisions : ScannerState → List ScanRecord → List (String × Decision) →
    ScannerState × List ScanRecord
  | s, h, [] => (s, h)
  | s, h, (p, .accept) :: rest =>
      let r := savePlate (stageResult s p) h h.length 0
      runDecisions r.1 r.2.1 rest
  | s, h, (p, .reject) :: rest =>
      runDecisions (rejectPlate (stageResult s p)) h rest

/-- The application-level state: the scanner component state together
with the History Log held in the parent layout. -/
structure AppState where
  scanner : ScannerState
  history : List ScanRecord
  deriving DecidableEq, Repr

/-- One full scan round trip at the application level.  `handleScan`
never receives the `onScan` callback and has no other access to the
History Log, so the log is carried through unchanged by construction;
only `savePlate` can extend it. -/
def appHandleScan (a : AppState) (refsOk ctxOk : Bool) (resp : ScanOutcome) :
    AppState × Bool × Option Toast :=
  let st := handleScan a.scanner refsOk ctxOk resp
  (⟨st.state, a.history⟩, st.called, st.toast)

/-! Camera lifecycle (the mount effect of `CameraScanner`).

The effect runs with an empty dependency array, so it runs exactly once,
after the first render, and its cleanup closure is created in that
render.  The cleanup reads the `stream` state variable:
`return () => { stream?.getTracks().forEach((track) => track.stop()); }`.
The `stream` binding it closes over is the one of the mounting render,
where `useState<MediaStream | null>(null)` still holds `null`;
`setStream(userStream)` later replaces the state but not the captured
binding. -/

/-- The cleanup closure returned by the mount effect, holding the
`stream` value it captured. -/
structure EffectCleanup where
  capturedStream : Option MediaStream
  deriving DecidableEq, Repr

/-- The value of the `stream` state variable in the render during which
the effect (dependency array `[]`) runs: the `useState` initial value. -/
def streamAtFirstRender : Option MediaStream := none

/-- Running the mount effect: `setupCamera` resolves (storing `acquired`
via `setStream`, or leaving the state `none` when access was denied)
and the effect returns its cleanup closure, which closed over the
`stream` value of the mounting render. -/
def mountEffect (acquired : Option MediaStream) : Option MediaStream × EffectCleanup :=
  (acquired, ⟨streamAtFirstRender⟩)

/-- Running the cleanup: `stream?.getTracks().forEach((track) => track.stop())`
applied to the captured value; returns the tracks that get stopped. -/
def runCleanup (c : EffectCleanup) : List Nat :=
  match c.capturedStream with
  | some st => st.tracks
  | none => []

/-- The tracks stopped at unmount of a component whose acquisition
yielded `acquired`. -/
def unmountStops (acquired : Option MediaStream) : List Nat :=
  runCleanup (mountEffect acquired).2

/-! Recognition flow input validation
(`src/ai/flows/initiate-scan-with-prompt.ts`, two schema revisions). -/

/-- A recognition request as the callers build it: an optional text
hint and an optional encoded image. -/
structure RecognitionInput where
  prompt : Option String
  photoDataUri : Option String
  deriving DecidableEq, Repr

/-- Input validation of the image revision of the flow:
`z.object({ prompt: z.string().optional(), photoDataUri: z.string() })` —
`photoDataUri` is required, `prompt` is optional. -/
def validPhotoFlowInput (i : RecognitionInput) : Bool :=
  i.photoDataUri.isSome

/-- Input validation of the text-only revision of the flow:
`z.object({ prompt: z.string() })` — `prompt` is required and there is
no image field (an extra key is stripped, not rejected). -/
def validPromptFlowInput (i : RecognitionInput) : Bool :=
  i.prompt.isSome

/-- A flow failure: the zod schema rejected the input. -/
inductive FlowError where
  | invalidInput
  deriving DecidableEq, Repr

/-- The image revision of `initiateScanWithPrompt` as a function of the
service's reply `svcPlate`: validate the input against the schema, then
return the service output verbatim (`return output!`). -/
def runPhotoFlow (i : RecognitionInput) (svcPlate : String) : Except FlowError String :=
  if validPhotoFlowInput i then .ok svcPlate else .error .invalidInput

/-- The text-only revision of `initiateScanWithPrompt` as a function of
the service's reply. -/
def runPromptFlow (i : RecognitionInput) (svcPlate : String) : Except FlowError String :=
  if validPromptFlowInput i then .ok svcPlate else .error .invalidInput

/-! History serialization and summarization (`ScanHistory` in
`src/components/scan-history.tsx`). -/

/-- Two-digit zero padding, as date-fns `format` produces for the
`MM`, `dd`, `HH`, `mm`, `ss` fields. -/
def pad2 (n : Nat) : String :=
  if n < 10 then "0" ++ toString n else toString n

/-- Four-digit zero padding for the `yyyy` field. -/
def pad4 (n : Nat) : String :=
  if n < 10 then "000" ++ toString n
  else if n < 100 then "00" ++ toString n
  else if n < 1000 then "0" ++ toString n
  else toString n

/-- Civil date (year, month, day) of a day count since 1970-01-01,
proleptic Gregorian calendar. -/
def civilFromDays (z : Nat) : Nat × Nat × Nat :=
  let z := z + 719468
  let era := z / 146097
  let doe := z % 146097
  let yoe := ((doe + doe / 36524) - (doe / 1460 + doe / 146096)) / 365
  let y := yoe + era * 400
  let doy := doe - ((365 * yoe + yoe / 4) - yoe / 100)
  let mp := (5 * doy + 2) / 153
  let d := (doy - (153 * mp + 2) / 5) + 1
  let m := if mp < 10 then mp + 3 else mp - 9
  (if m ≤ 2 then y + 1 else y, m, d)

/-- `format(new Date(ms), "yyyy-MM-dd HH:mm:ss")` on an epoch
milliseconds timestamp (rendered here in UTC; date-fns renders in the
browser's local zone, which shifts the clock fields but not the shape
of the string). -/
def formatTimestamp (ms : Nat) : String :=
  let secs := ms / 1000
  let ymd := civilFromDays (secs / 86400)
  let sod := secs % 86400
  pad4 ymd.1 ++ "-" ++ pad2 ymd.2.1 ++ "-" ++ pad2 ymd.2.2 ++ " " ++
    pad2 (sod / 3600) ++ ":" ++ pad2 (sod % 3600 / 60) ++ ":" ++ pad2 (sod % 60)

/-- One serialized history line:
`` `${h.plateNumber} at ${format(new Date(h.timestamp), "yyyy-MM-dd HH:mm:ss")}` ``. -/
def recordLine (r : ScanRecord) : String :=
  r.plateNumber ++ " at " ++ formatTimestamp r.timestamp

/-- `Array.prototype.join("\n")`: the empty array joins to the empty
string, a singleton to its element, otherwise elements separated by a
newline. -/
def joinLines : List String → String
  | [] => ""
  | [x] => x
  | x :: xs => x ++ "\n" ++ joinLines xs

/-- The serialized History Log sent to the Summarization Service:
`history.map((h) => ...).join("\n")`. -/
def toSummarizableText (history : List ScanRecord) : String :=
  joinLines (history.map recordLine)

/-- The component-local state of `ScanHistory`: the `summary`,
`isSummarizing` and `isSummaryOpen` hooks. -/
structure HistoryViewState where
  summary : Option String
  isSummarizing : Bool
  isSummaryOpen : Bool
  deriving DecidableEq, Repr

/-- The resolution of the `summarizeScanHistory` call. -/
inductive SummaryOutcome where
  | ok (summary : String)
  | err
  deriving DecidableEq, Repr

/-- `handleGenerateSummary`: `if (history.length === 0) return;` before
any state is touched or the service is called; otherwise the dialog is
opened, the serialized history is sent, and the summary (or the fixed
fallback message) is stored; `finally` resets `isSummarizing`.  Returns
the final view state and whether `summarizeScanHistory` was invoked. -/
def handleGenerateSummary (v : HistoryViewState) (history : List ScanRecord)
    (resp : SummaryOutcome) : HistoryViewState × Bool :=
  if history.length = 0 then (v, false)
  else
    match resp with
    | .ok s => ({ summary := some s, isSummarizing := false, isSummaryOpen := true }, true)
    | .err =>
        ({ summary := some "Failed to generate summary. Please try again later.",
           isSummarizing := false, isSummaryOpen := true }, true)

end PkcScanning
namespace PkcScanning

/-! Helper lemmas shared by the claim theorems. -/

/-- Accepting a freshly staged nonempty plate appends exactly one record. -/
lemma savePlate_staged (s : ScannerState) (h : List ScanRecord) (p : String)
    (id ts : Nat) (hp : p ≠ "") :
    savePlate (stageResult s p) h id ts =
      ({ s with detectedPlate := none }, h ++ [⟨id, p, ts⟩], some (.saved p)) := by
  simp [savePlate, stageResult, onScan, hp]

/-- The plates accepted along a decision sequence count its accepts. -/
lemma acceptedPlates_length (ds : List (String × Decision)) :
    (acceptedPlates ds).length = countAccepts ds := by
  induction ds with
  | nil => rfl
  | cons x rest ih =>
      obtain ⟨p, d⟩ := x
      cases d <;> simp [acceptedPlates, countAccepts, ih]

/-- A decision run appends exactly the accepted plates, in order. -/
lemma runDecisions_plates (ds : List (String × Decision)) :
    ∀ (s : ScannerState) (h : List ScanRecord), (∀ x ∈ ds, x.1 ≠ "") →
      (runDecisions s h ds).2.map ScanRecord.plateNumber
        = h.map ScanRecord.plateNumber ++ acceptedPlates ds := by
  induction ds with
  | nil => intro s h _; simp [runDecisions, acceptedPlates]
  | cons x rest ih =>
      obtain ⟨p, d⟩ := x
      intro s h hne
      have hp : p ≠ "" := hne (p, d) (List.mem_cons_self _ _)
      have hrest : ∀ x ∈ rest, x.1 ≠ "" := fun x hx => hne x (List.mem_cons_of_mem _ hx)
      cases d with
      | accept =>
          simp only [runDecisions, savePlate_staged s h p h.length 0 hp]
          rw [ih _ _ hrest]
          simp [acceptedPlates]
      | reject =>
          simp only [runDecisions]
          rw [ih _ _ hrest]
          simp [acceptedPlates]

/-- JS `join("\n")` over an appended element. -/
lemma joinLines_append (l : List String) (x : String) :
    joinLines (l ++ [x]) = if l = [] then x else joinLines l ++ "\n" ++ x := by
  induction l with
  | nil => simp [joinLines]
  | cons a l ih =>
      cases l with
      | nil => simp [joinLines]
      | cons b l2 =>
          have ih2 : joinLines (b :: (l2 ++ [x])) = joinLines (b :: l2) ++ ("\n" ++ x) := by
            have := ih
            simp only [List.cons_append, if_neg (List.cons_ne_nil b l2)] at this
            simpa [String.append_assoc] using this
          simp [joinLines, ih2, String.append_assoc]

/-! Claim theorems. -/

/-- Claim C1 counterexample: in the `src/unnamed/part_000` revision an
inference response with the empty plate string does not fail the scan:
a random mock plate ("ABC-1234" at random index 0) is fabricated and
staged, so the claim as stated is false on that workflow revision. -/
theorem demo_variant_fabricates_plate_on_empty :
    initialScanner.detectedPlate = none ∧
    (handleScanDemo initialScanner (.ok "") (0 : Fin 5)).state.detectedPlate
      = some "ABC-1234" := by decide

/-- Claim C1 (amended): in the `camera-scanner.tsx` workflow, a response
whose plate is empty after trimming ends the cycle in the failed-scan
notification ("No Plate Found") with both in-flight flags back to false
(Capturing to Failed to Idle), stages nothing new (`detectedPlate` is
unchanged), and leaves the History Log unchanged; the `part_000` demo
revision instead fabricates a mock plate. -/
theorem empty_result_fails_without_staging (a : AppState) (p : String)
    (hcap : a.scanner.isCapturing = false) (hempty : jsTrim p = "") :
    (appHandleScan a true true (.ok p)).1.history = a.history ∧
    (appHandleScan a true true (.ok p)).1.scanner.detectedPlate = a.scanner.detectedPlate ∧
    (appHandleScan a true true (.ok p)).1.scanner.isCapturing = false ∧
    (appHandleScan a true true (.ok p)).1.scanner.isScanning = false ∧
    (appHandleScan a true true (.ok p)).2.2 = some Toast.noPlateFound := by
  simp [appHandleScan, handleScan, hcap, hempty]

/-- Claim C1 witness. -/
theorem empty_result_fails_without_staging_witness :
    (appHandleScan ⟨initialScanner, []⟩ true true (.ok "  ")).1.history = [] ∧
    (appHandleScan ⟨initialScanner, []⟩ true true (.ok "  ")).2.2 = some Toast.noPlateFound := by
  have h := empty_result_fails_without_staging ⟨initialScanner, []⟩ "  " rfl (by decide)
  exact ⟨h.1, h.2.2.2.2⟩

/-- Claim C2: while a capture is in flight (`isCapturing` set), a second
trigger is a silent no-op in every scanner revision: the state is
returned unchanged, no recognition call is issued, and no toast is
shown. -/
theorem reentrancy_guard_noop (s : ScannerState) (refsOk ctxOk : Bool)
    (resp : ScanOutcome) (rand : Fin 5) (hcap : s.isCapturing = true) :
    handleScan s refsOk ctxOk resp = ⟨s, false, none⟩ ∧
    handleScanUpper s refsOk ctxOk resp = ⟨s, false, none⟩ ∧
    handleScanDemo s resp rand = ⟨s, false, none⟩ := by
  simp [handleScan, handleScanUpper, handleScanDemo, hcap]

/-- Claim C2 witness. -/
theorem reentrancy_guard_noop_witness :
    handleScan ⟨none, true, none, true⟩ true true (.ok "XYZ-987")
      = ⟨⟨none, true, none, true⟩, false, none⟩ :=
  (reentrancy_guard_noop ⟨none, true, none, true⟩ true true (.ok "XYZ-987") (0 : Fin 5) rfl).1

/-- Claim C3: over any sequence of staged-plate accept/reject decisions
(with the nonempty plates a successful recognition stages), the History
Log gains exactly the accepted plates in order, so its length is the
starting length plus the number of accepts; a reject step never touches
the log. -/
theorem history_length_counts_accepts (s : ScannerState) (h : List ScanRecord)
    (ds : List (String × Decision)) (hne : ∀ x ∈ ds, x.1 ≠ "") :
    (runDecisions s h ds).2.map ScanRecord.plateNumber
        = h.map ScanRecord.plateNumber ++ acceptedPlates ds ∧
    (runDecisions s h ds).2.length = h.length + countAccepts ds ∧
    ∀ (s2 : ScannerState) (h2 : List ScanRecord) (p : String),
      (runDecisions s2 h2 [(p, Decision.reject)]).2 = h2 := by
  have hm := runDecisions_plates ds s h hne
  refine ⟨hm, ?_, fun _ _ _ => rfl⟩
  have := congrArg List.length hm
  simpa [acceptedPlates_length] using this

/-- Claim C3 witness. -/
theorem history_length_counts_accepts_witness :
    (runDecisions initialScanner []
        [("AAA-111", Decision.accept), ("BBB-222", Decision.reject),
         ("CCC-333", Decision.accept)]).2.length
      = 0 + countAccepts
          [("AAA-111", Decision.accept), ("BBB-222", Decision.reject),
           ("CCC-333", Decision.accept)] :=
  (history_length_counts_accepts initialScanner _ _ (by decide)).2.1

/-- Claim C4 counterexample: a service response of " abc-123 " is staged
as " abc-123 " verbatim by `camera-scanner.tsx` and as " ABC-123 "
(uppercased, not trimmed) by the `scan-history.tsx` revision; neither
equals the trim-plus-uppercase normalization "ABC-123" the claim
states. -/
theorem staged_plate_not_normalized :
    (handleScan initialScanner true true (.ok " abc-123 ")).state.detectedPlate
        = some " abc-123 " ∧
    (handleScanUpper initialScanner true true (.ok " abc-123 ")).state.detectedPlate
        = some " ABC-123 " ∧
    jsToUpper (jsTrim " abc-123 ") = "ABC-123" ∧
    (" abc-123 " : String) ≠ "ABC-123" ∧ (" ABC-123 " : String) ≠ "ABC-123" := by
  decide

/-- Claim C4 (amended): for every plate string accepted by the
nonempty-after-trim guard, `camera-scanner.tsx` stages the returned
string verbatim (no trimming, no case change), and the revision in
`scan-history.tsx` stages it uppercased but not trimmed. -/
theorem staged_plate_verbatim_or_uppercased (s : ScannerState) (p : String)
    (hcap : s.isCapturing = false) (hne : p ≠ "") (hlen : 0 < (jsTrim p).length) :
    (handleScan s true true (.ok p)).state.detectedPlate = some p ∧
    (handleScanUpper s true true (.ok p)).state.detectedPlate = some (jsToUpper p) := by
  simp [handleScan, handleScanUpper, hcap, hne, hlen]

/-- Claim C4 witness. -/
theorem staged_plate_verbatim_or_uppercased_witness :
    (handleScan initialScanner true true (.ok " abc-123 ")).state.detectedPlate
        = some " abc-123 " ∧
    (handleScanUpper initialScanner true true (.ok " abc-123 ")).state.detectedPlate
        = some (jsToUpper " abc-123 ") :=
  staged_plate_verbatim_or_uppercased initialScanner " abc-123 " rfl (by decide) (by decide)

/-- Claim C5 counterexample: with "AAA-111" staged, a new capture that
returns the empty plate (or errors) leaves the old staged result in
place — it is not destroyed, contradicting the claim that a new capture
supersedes the staged result regardless of its outcome. -/
theorem staged_result_survives_failed_capture :
    ((handleScan ⟨none, false, some "AAA-111", false⟩ true true (.ok "")).state.detectedPlate
        = some "AAA-111") ∧
    ((handleScan ⟨none, false, some "AAA-111", false⟩ true true .err).state.detectedPlate
        = some "AAA-111") := by decide

/-- Claim C5 (amended): a new capture supersedes the staged result only
when it succeeds with a plate that is nonempty after trimming (the new
plate replaces the old); on an empty result or an error the previously
staged result is retained unchanged. -/
theorem new_capture_supersedes_only_on_nonempty_success (s : ScannerState) (p : String)
    (hcap : s.isCapturing = false) :
    (p ≠ "" → 0 < (jsTrim p).length →
        (handleScan s true true (.ok p)).state.detectedPlate = some p) ∧
    (jsTrim p = "" →
        (handleScan s true true (.ok p)).state.detectedPlate = s.detectedPlate) ∧
    (handleScan s true true .err).state.detectedPlate = s.detectedPlate := by
  refine ⟨fun hne hlen => ?_, fun hempty => ?_, ?_⟩ <;>
    simp [handleScan, hcap, *]

/-- Claim C5 witness. -/
theorem new_capture_supersedes_only_on_nonempty_success_witness :
    ((handleScan ⟨none, false, some "OLD-1", false⟩ true true (.ok "NEW-2")).state.detectedPlate
        = some "NEW-2") ∧
    ((handleScan ⟨none, false, some "OLD-1", false⟩ true true .err).state.detectedPlate
        = (⟨none, false, some "OLD-1", false⟩ : ScannerState).detectedPlate) :=
  ⟨(new_capture_supersedes_only_on_nonempty_success ⟨none, false, some "OLD-1", false⟩
      "NEW-2" rfl).1 (by decide) (by decide),
   (new_capture_supersedes_only_on_nonempty_success ⟨none, false, some "OLD-1", false⟩
      "NEW-2" rfl).2.2⟩

/-- Claim C6 (code bug): the unmount cleanup closes over the `stream`
state of the mounting render, which is still null, so it stops no track
at all — on a teardown after a successful acquisition the acquired
track (id 0 here) is never stopped, contradicting the release contract
the cleanup code itself was written for. -/
theorem unmount_stops_no_tracks :
    (∀ acquired : Option MediaStream, unmountStops acquired = []) ∧
    (⟨[0]⟩ : MediaStream).tracks = [0] :=
  ⟨fun _ => rfl, rfl⟩

/-- Claim C7 counterexample: a request carrying only a text hint has at
least one of the two fields present, yet the image revision of the flow
rejects it because its schema requires `photoDataUri`
unconditionally. -/
theorem hint_only_input_rejected :
    (⟨some "a blue sedan", none⟩ : RecognitionInput).prompt.isSome = true ∧
    runPhotoFlow ⟨some "a blue sedan", none⟩ "ABC-123" = .error .invalidInput ∧
    runPromptFlow ⟨none, some "data:image/jpeg;base64,AAAA"⟩ "ABC-123"
      = .error .invalidInput := ⟨rfl, rfl, rfl⟩

/-- Claim C7 (amended): each flow revision requires its own mandatory
field rather than at least one of the two: the image revision fails
validation exactly when `photoDataUri` is absent (even if a hint is
present) and otherwise returns the service's plateNumber verbatim
(empty string meaning no plate recognized); the text-only revision does
the same for `prompt`; an input with neither field fails both. -/
theorem flow_requires_its_mandatory_field (i : RecognitionInput) (svc : String) :
    (i.photoDataUri = none → runPhotoFlow i svc = .error .invalidInput) ∧
    (∀ u, i.photoDataUri = some u → runPhotoFlow i svc = .ok svc) ∧
    (i.prompt = none → runPromptFlow i svc = .error .invalidInput) ∧
    (∀ t, i.prompt = some t → runPromptFlow i svc = .ok svc) := by
  refine ⟨fun h => ?_, fun u h => ?_, fun h => ?_, fun t h => ?_⟩ <;>
    simp [runPhotoFlow, runPromptFlow, validPhotoFlowInput, validPromptFlowInput, h]

/-- Claim C7 witness. -/
theorem flow_requires_its_mandatory_field_witness :
    runPhotoFlow ⟨none, some "data:image/jpeg;base64,AAAA"⟩ "" = .ok "" ∧
    runPromptFlow ⟨none, some "data:image/jpeg;base64,AAAA"⟩ "" = .error .invalidInput :=
  ⟨(flow_requires_its_mandatory_field ⟨none, some "data:image/jpeg;base64,AAAA"⟩ "").2.1
      "data:image/jpeg;base64,AAAA" rfl,
   (flow_requires_its_mandatory_field ⟨none, some "data:image/jpeg;base64,AAAA"⟩ "").2.2.1 rfl⟩

/-- Claim C8: on an empty History Log the serialization is the empty
string and `handleGenerateSummary` returns before touching any state or
invoking the Summarization Service. -/
theorem empty_history_skips_summarization (v : HistoryViewState) (resp : SummaryOutcome) :
    handleGenerateSummary v [] resp = (v, false) ∧ toSummarizableText [] = "" :=
  ⟨rfl, rfl⟩

/-- Claim C9: the serialized History Log is one line per record in
insertion order, each of the form "plate at timestamp", joined by
newlines: the empty log serializes to "", and appending a record to the
log appends exactly its line (after a newline when the log was
nonempty). -/
theorem serialization_one_line_per_record :
    toSummarizableText [] = "" ∧
    (∀ r : ScanRecord, recordLine r = r.plateNumber ++ " at " ++ formatTimestamp r.timestamp) ∧
    ∀ (h : List ScanRecord) (r : ScanRecord),
      toSummarizableText (h ++ [r]) =
        if h = [] then recordLine r else toSummarizableText h ++ "\n" ++ recordLine r := by
  refine ⟨rfl, fun _ => rfl, fun h r => ?_⟩
  by_cases hh : h = []
  · subst hh; simp [toSummarizableText, joinLines]
  · have hmap : h.map recordLine ≠ [] := by simpa using hh
    simp only [toSummarizableText, List.map_append, List.map_cons, List.map_nil,
      joinLines_append, if_neg hmap, if_neg hh]

/-- Claim C10: pressing Save with no staged result is a total no-op:
the component state, the History Log and the emitted toast are all
unchanged, and no record is produced. -/
theorem save_without_staged_is_noop (s : ScannerState) (h : List ScanRecord)
    (id ts : Nat) (hs : s.detectedPlate = none) :
    savePlate s h id ts = (s, h, none) := by
  simp [savePlate, hs]

/-- Claim C10 witness. -/
theorem save_without_staged_is_noop_witness :
    savePlate initialScanner [] 3 7 = (initialScanner, [], none) :=
  save_without_staged_is_noop initialScanner [] 3 7 rfl

end PkcScanning
